import Mathlib

/-!
Verification of the authentication session lifecycle subsystem of the
gurujiyog-backend repository: the JWT token service
(src/services/auth/tokenService.ts), the persistent session store
(src/models/Session.ts, manipulated through mongoose update operations in
the token service), and the hybrid session-read controller with its
read-through cache (HybridAuthController, backed by the MemoryCache or
RedisCache implementations).

Modelling conventions:
- Times are Nat, in milliseconds, on a single clock (the source mixes
  Date.now() milliseconds with JWT second-granularity claims; the claims
  under verification do not depend on the unit, so the JWT expiry
  constants are expressed in milliseconds as well).
- A serialized token string is modelled by the inductive TokenStr: either
  a well-formed signed JWT (carrying its payload and the secret it was
  signed with), the empty string, a string formed by prepending the
  case-insensitive word Bearer plus one whitespace character, a string
  formed by prepending one whitespace character, or any other non-empty
  string that neither starts with whitespace nor with Bearer-then-
  whitespace (the garbage constructor).
- jwt.sign / jwt.verify of the jsonwebtoken library are modelled by
  construction of a TokenStr.jwt value and by jwtVerify. jwt.verify
  succeeds exactly on a well-formed token signed with the given secret
  whose exp claim is still in the future. In the source, every
  verification error (malformed input, bad signature, expiry) is an
  instance of JsonWebTokenError (TokenExpiredError is a subclass), so the
  first instanceof branch of each catch block always fires and every
  failure collapses to the result with error "Invalid token signature".
- SHA-256 hex digests are modelled by the free constructor
  Sha256.digestHex applied to the preimage (a collision-free
  idealization); determinism holds because it is a function.
- The MongoDB session collection is a List SessionRecord. findOne is
  List.find? (first match), updateOne updates the first matching record,
  updateMany maps over all matching records, create appends. The record
  carries the spec's SessionRecord shape, including revokedAt. The schema
  in src/models/Session.ts declares no revokedAt path and the repository
  runs mongoose 8 with default strict mode, which strips unknown paths
  from update casts: the revokedAt value the service passes to updateOne
  and updateMany is never persisted, so the modelled updates write only
  isActive and every stored record keeps revokedAt at none. (The
  automatic updatedAt timestamp of the timestamps option is outside the
  model.)
- The session cache is a list of entries with a hard deadline, following
  the MemoryCache implementation: setex stores now + ttl*1000, get serves
  an entry while now <= deadline (isExpired is strict greater-than).
-/

namespace GurujiYog

/-- Decidable equality on Except values, so that concrete runs of the
fallible operations can be checked by the decide tactic. -/
instance {ε α : Type} [DecidableEq ε] [DecidableEq α] : DecidableEq (Except ε α) :=
  fun a b =>
    match a, b with
    | .ok x, .ok y =>
        if h : x = y then isTrue (by rw [h]) else isFalse (by intro hh; cases hh; exact h rfl)
    | .error x, .error y =>
        if h : x = y then isTrue (by rw [h]) else isFalse (by intro hh; cases hh; exact h rfl)
    | .ok _, .error _ => isFalse (by intro hh; cases hh)
    | .error _, .ok _ => isFalse (by intro hh; cases hh)

/-- Environment secrets: JWT_SECRET and JWT_REFRESH_SECRET (or their
fallback values) as read by TokenService.getSecret. -/
structure Env where
  accessSecret : String
  refreshSecret : String
deriving DecidableEq

/-- Payload of a signed JWT as produced by jwt.sign in the token service:
the userId claim, the type claim, the secret the token was signed with,
and the iat/exp timestamps. -/
structure Jwt where
  userId : String
  type : String
  secret : String
  iat : Nat
  exp : Nat
deriving DecidableEq

/-- A token string as received by the verification entry points. -/
inductive TokenStr where
  /-- A well-formed serialized JWT. Such a string consists of base64url
  characters and dots, hence never starts with whitespace and never
  matches the pattern Bearer-followed-by-whitespace. -/
  | jwt (payload : Jwt)
  /-- The empty string. -/
  | empty
  /-- The case-insensitive word Bearer followed by one whitespace
  character, followed by the rendering of rest. -/
  | bearerThen (rest : TokenStr)
  /-- One whitespace character followed by the rendering of rest. -/
  | wsThen (rest : TokenStr)
  /-- Any other non-empty string: it does not start with whitespace and
  does not start with Bearer-followed-by-whitespace, and it is not a
  well-formed signed JWT. -/
  | garbage (s : String)
deriving DecidableEq

/-- Maximal run of leading whitespace characters removed, as consumed
greedily by a whitespace-plus regex after an initial match. -/
def dropLeadingWs : TokenStr → TokenStr
  | .wsThen rest => dropLeadingWs rest
  | t => t

/-- Effect of token.replace with the anchored case-insensitive regex
matching Bearer followed by one-or-more whitespace, as performed at the
start of TokenService.verifyAccessToken. Only a leading match is
replaced; the whitespace quantifier is greedy. -/
def stripBearer : TokenStr → TokenStr
  | .bearerThen rest => dropLeadingWs rest
  | t => t

/-- Distinct verification failures of jwt.verify. In the source all three
are JsonWebTokenError instances and are collapsed by the catch blocks. -/
inductive JwtError where
  | malformed
  | badSignature
  | expired
deriving DecidableEq

/-- Model of jwt.verify(token, secret) at time now: succeeds exactly on a
well-formed token signed with the given secret whose exp claim is in the
future (jsonwebtoken treats a token as expired once the clock reaches
exp). -/
def jwtVerify (secret : String) (now : Nat) : TokenStr → Except JwtError Jwt
  | .jwt p =>
      if p.secret = secret then
        if p.exp ≤ now then .error .expired else .ok p
      else .error .badSignature
  | _ => .error .malformed

/-- TokenValidationResult of the token service. -/
structure TokenValidationResult where
  userId : String
  isValid : Bool
  error : Option String
deriving DecidableEq

/-- TokenError thrown by the token service, with its message and code. -/
structure TokenError where
  message : String
  code : String
deriving DecidableEq

/-- ACCESS_TOKEN_EXPIRY of TOKEN_CONFIG: 15 minutes, in milliseconds. -/
def ACCESS_TOKEN_EXPIRY_MS : Nat := 15 * 60 * 1000

/-- REFRESH_TOKEN_EXPIRY of TOKEN_CONFIG: 7 days, in milliseconds. -/
def REFRESH_TOKEN_EXPIRY_MS : Nat := 7 * 24 * 60 * 60 * 1000

/-- TokenService.generateAccessToken: rejects an empty userId, otherwise
signs a payload with type access and a 15-minute expiry using the access
secret. The token-pair issuance path passes no additional claims. -/
def generateAccessToken (env : Env) (userId : String) (now : Nat) :
    Except TokenError TokenStr :=
  if userId = "" then
    .error ⟨"Failed to generate access token", "TOKEN_GENERATION_FAILED"⟩
  else
    .ok (.jwt ⟨userId, "access", env.accessSecret, now, now + ACCESS_TOKEN_EXPIRY_MS⟩)

/-- TokenService.generateRefreshToken: rejects an empty userId, otherwise
signs a payload with type refresh and a 7-day expiry using the refresh
secret. -/
def generateRefreshToken (env : Env) (userId : String) (now : Nat) :
    Except TokenError TokenStr :=
  if userId = "" then
    .error ⟨"Failed to generate refresh token", "TOKEN_GENERATION_FAILED"⟩
  else
    .ok (.jwt ⟨userId, "refresh", env.refreshSecret, now, now + REFRESH_TOKEN_EXPIRY_MS⟩)

/-- TokenService.verifyAccessToken: returns null on empty input, strips a
leading case-insensitive Bearer-plus-whitespace run, verifies with the
access secret, requires the type claim to be access and a non-empty
userId claim; any jwt.verify error is a JsonWebTokenError (expiry
included, since TokenExpiredError subclasses it), so every failure yields
the invalid result with error message Invalid token signature. -/
def verifyAccessToken (env : Env) (now : Nat) (token : TokenStr) :
    Option TokenValidationResult :=
  if token = .empty then none
  else
    match jwtVerify env.accessSecret now (stripBearer token) with
    | .ok decoded =>
        if decoded.type ≠ "access" then none
        else if decoded.userId = "" then none
        else some ⟨decoded.userId, true, none⟩
    | .error _ => some ⟨"", false, some "Invalid token signature"⟩

/-- TokenService.verifyRefreshToken: returns null on empty input,
verifies the raw token with the refresh secret without any Bearer
stripping, requires the type claim to be refresh and a non-empty userId
claim; failures collapse as in verifyAccessToken. -/
def verifyRefreshToken (env : Env) (now : Nat) (token : TokenStr) :
    Option TokenValidationResult :=
  if token = .empty then none
  else
    match jwtVerify env.refreshSecret now token with
    | .ok decoded =>
        if decoded.type ≠ "refresh" then none
        else if decoded.userId = "" then none
        else some ⟨decoded.userId, true, none⟩
    | .error _ => some ⟨"", false, some "Invalid token signature"⟩

/-- An SHA-256 hex digest, modelled as the free constructor applied to
the preimage. -/
inductive Sha256 where
  | digestHex (preimage : TokenStr)
deriving DecidableEq

/-- TokenService.hashRefreshToken: throws on an empty token (the inner
MISSING_TOKEN error is caught by the function's own catch block and
rethrown as HASH_GENERATION_FAILED), otherwise returns the SHA-256 hex
digest of the raw token. -/
def hashRefreshToken (token : TokenStr) : Except TokenError Sha256 :=
  if token = .empty then
    .error ⟨"Failed to hash refresh token", "HASH_GENERATION_FAILED"⟩
  else .ok (.digestHex token)

/-- SessionData metadata passed to createSession. -/
structure SessionData where
  deviceInfo : String
  ipAddress : String
  userAgent : Option String
deriving DecidableEq

/-- A persisted session document, with the field set written by the
token service (the revokedAt field is absent until a revocation writes
it). -/
structure SessionRecord where
  userId : String
  refreshTokenHash : Sha256
  deviceInfo : String
  ipAddress : String
  userAgent : Option String
  expiresAt : Nat
  isActive : Bool
  createdAt : Nat
  lastUsed : Nat
  revokedAt : Option Nat
deriving DecidableEq

/-- The session collection, as a list of documents in insertion order. -/
abbrev Store := List SessionRecord

/-- Filter used by Session.findOne in validateSession: matching hash,
isActive true, and expiresAt strictly greater than now. -/
def sessionMatches (h : Sha256) (now : Nat) (s : SessionRecord) : Bool :=
  decide (s.refreshTokenHash = h) && s.isActive && decide (now < s.expiresAt)

/-- Semantics of a MongoDB updateOne: the first document matching the
filter is updated, all others are left untouched. -/
def updateFirst (p : SessionRecord → Bool) (f : SessionRecord → SessionRecord) :
    List SessionRecord → List SessionRecord
  | [] => []
  | s :: rest => if p s then f s :: rest else s :: updateFirst p f rest

/-- The SessionRecord document built by TokenService.createSession,
expressed as a function of the token hash only: the raw refresh token
enters the stored document exclusively through its SHA-256 digest. -/
def recordFromHash (userId : String) (h : Sha256) (sd : SessionData) (now : Nat) :
    SessionRecord :=
  { userId := userId
    refreshTokenHash := h
    deviceInfo := sd.deviceInfo
    ipAddress := sd.ipAddress
    userAgent := sd.userAgent
    expiresAt := now + 7 * 24 * 60 * 60 * 1000
    isActive := true
    createdAt := now
    lastUsed := now
    revokedAt := none }

/-- TokenService.createSession: rejects missing userId or token, hashes
the raw refresh token and persists a new active document with a 7-day
expiry. Session.create appends to the collection. -/
def createSession (userId : String) (refreshToken : TokenStr) (sd : SessionData)
    (now : Nat) (st : Store) : Except TokenError Store :=
  if userId = "" ∨ refreshToken = .empty then
    .error ⟨"Failed to create session", "SESSION_CREATION_FAILED"⟩
  else
    match hashRefreshToken refreshToken with
    | .error _ => .error ⟨"Failed to create session", "SESSION_CREATION_FAILED"⟩
    | .ok h => .ok (st ++ [recordFromHash userId h sd now])

/-- TokenService.validateSession: null on empty input; stateless
verifyRefreshToken first; on success, findOne by hash among active
unexpired documents; if found, the lastUsed timestamp of that document is
updated (session.save) and the userId of the document is returned. -/
def validateSession (env : Env) (now : Nat) (refreshToken : TokenStr) (st : Store) :
    Option String × Store :=
  if refreshToken = .empty then (none, st)
  else
    match verifyRefreshToken env now refreshToken with
    | none => (none, st)
    | some v =>
        if v.isValid = false then (none, st)
        else
          match hashRefreshToken refreshToken with
          | .error _ => (none, st)
          | .ok h =>
              match st.find? (sessionMatches h now) with
              | none => (none, st)
              | some s =>
                  (some s.userId,
                   updateFirst (sessionMatches h now) (fun r => { r with lastUsed := now }) st)

/-- TokenService.revokeSession: throws on an empty token; otherwise
updateOne with the filter on refreshTokenHash alone (active or not).
The service passes isActive false and revokedAt now to updateOne, but
the schema in src/models/Session.ts declares no revokedAt path and
mongoose runs with default strict mode, which strips unknown paths from
update casts, so only isActive false reaches the stored document; the
now argument is kept for the discarded timestamp. A missing document
only logs a warning. -/
def revokeSession (refreshToken : TokenStr) (_now : Nat) (st : Store) :
    Except TokenError Store :=
  if refreshToken = .empty then
    .error ⟨"Failed to revoke session", "SESSION_REVOCATION_FAILED"⟩
  else
    match hashRefreshToken refreshToken with
    | .error _ => .error ⟨"Failed to revoke session", "SESSION_REVOCATION_FAILED"⟩
    | .ok h =>
        .ok (updateFirst (fun s => decide (s.refreshTokenHash = h))
              (fun s => { s with isActive := false }) st)

/-- TokenService.revokeAllUserSessions: throws on an empty userId;
otherwise updateMany over the documents of the user that are active,
returning modifiedCount (every matched document has isActive true and is
set to false, hence is modified). As in revokeSession, the revokedAt
value the service passes is stripped by mongoose strict mode because the
schema has no revokedAt path, so the update writes only isActive; the
now argument is kept for the discarded timestamp. -/
def revokeAllUserSessions (userId : String) (_now : Nat) (st : Store) :
    Except TokenError (Nat × Store) :=
  if userId = "" then
    .error ⟨"Failed to revoke user sessions", "BULK_REVOCATION_FAILED"⟩
  else
    .ok ((st.filter (fun s => decide (s.userId = userId) && s.isActive)).length,
         st.map (fun s =>
           if decide (s.userId = userId) && s.isActive then
             { s with isActive := false }
           else s))

/-- TokenService.generateTokenPair: generates the access and refresh
tokens and persists the session for the refresh token; any inner error
is caught and rethrown as TOKEN_PAIR_GENERATION_FAILED. -/
def generateTokenPair (env : Env) (userId : String) (sd : SessionData)
    (now : Nat) (st : Store) : Except TokenError (TokenStr × TokenStr × Store) :=
  match generateAccessToken env userId now with
  | .error _ => .error ⟨"Failed to generate token pair", "TOKEN_PAIR_GENERATION_FAILED"⟩
  | .ok accessToken =>
      match generateRefreshToken env userId now with
      | .error _ => .error ⟨"Failed to generate token pair", "TOKEN_PAIR_GENERATION_FAILED"⟩
      | .ok refreshToken =>
          match createSession userId refreshToken sd now st with
          | .error _ => .error ⟨"Failed to generate token pair", "TOKEN_PAIR_GENERATION_FAILED"⟩
          | .ok st2 => .ok (accessToken, refreshToken, st2)

/-- A user document as read by HybridAuthController.buildSessionData. -/
structure HUser where
  id : String
  email : String
  name : String
  role : String
  isActive : Bool
  isVerified : Bool
deriving DecidableEq

/-- The user collection. -/
abbrev UserStore := List HUser

/-- Role-based permissions as produced by
HybridAuthController.generatePermissions. -/
structure Permissions where
  canBookClasses : Bool
  canTeach : Bool
  canManageShaalas : Bool
  canViewAnalytics : Bool
  maxBookingsPerDay : Nat
deriving DecidableEq

/-- HybridAuthController.generatePermissions: a switch over the role. -/
def generatePermissions (role : String) : Permissions :=
  if role = "student" then ⟨true, false, false, false, 3⟩
  else if role = "teacher" then ⟨true, true, false, true, 5⟩
  else if role = "shaala_owner" then ⟨true, true, true, true, 10⟩
  else ⟨false, false, false, false, 0⟩

/-- The sessionMetadata block of a session snapshot. -/
structure SessionMetadata where
  tokenExpiresAt : Nat
  refreshAt : Nat
  cacheExpiresAt : Nat
deriving DecidableEq

/-- The authenticated session payload built by buildSessionData and
stored in the cache (JSON serialization is left implicit). -/
structure SessionView where
  userId : String
  email : String
  name : String
  role : String
  isVerified : Bool
  permissions : Permissions
  sessionMetadata : SessionMetadata
deriving DecidableEq

/-- CACHE_TTL_SECONDS of HybridAuthController: 30 minutes. -/
def CACHE_TTL_SECONDS : Nat := 1800

/-- REFRESH_BEFORE_EXPIRY_SECONDS of HybridAuthController: 5 minutes. -/
def REFRESH_BEFORE_EXPIRY_SECONDS : Nat := 300

/-- HybridAuthController.buildSessionData: looks the user up, returns
null for a missing or inactive user, and otherwise assembles the
snapshot. The metadata is computed as in the source: tokenExpiresAt is
now plus 24 hours, refreshAt is tokenExpiresAt minus
REFRESH_BEFORE_EXPIRY_SECONDS (in milliseconds), and cacheExpiresAt is
now plus CACHE_TTL_SECONDS (in milliseconds). -/
def buildSessionData (users : UserStore) (userId : String) (now : Nat) :
    Option SessionView :=
  match users.find? (fun u => decide (u.id = userId)) with
  | none => none
  | some u =>
      if u.isActive = false then none
      else
        let tokenExpiresAt := now + 24 * 60 * 60 * 1000
        let refreshAt := tokenExpiresAt - REFRESH_BEFORE_EXPIRY_SECONDS * 1000
        let cacheExpiresAt := now + CACHE_TTL_SECONDS * 1000
        some ⟨u.id, u.email, u.name, u.role, u.isVerified,
              generatePermissions u.role,
              ⟨tokenExpiresAt, refreshAt, cacheExpiresAt⟩⟩

/-- A cache entry: key, hard deadline written by setex, stored value. -/
structure CacheEntry where
  key : String
  expiresAt : Nat
  value : SessionView
deriving DecidableEq

/-- The cache contents. -/
abbrev CacheState := List CacheEntry

/-- MemoryCache.get at time now: an entry is served while the deadline
has not strictly passed (isExpired is now strictly greater than
expiresAt); an expired or missing entry yields null. The lazy deletion of
an expired entry is omitted: it does not change any observable result. -/
def cacheGet (c : CacheState) (key : String) (now : Nat) : Option SessionView :=
  match c.find? (fun e => decide (e.key = key)) with
  | none => none
  | some e => if now ≤ e.expiresAt then some e.value else none

/-- MemoryCache.setex at time now: stores the value under the key with
deadline now plus ttl seconds, overwriting any previous entry. -/
def cacheSetex (c : CacheState) (key : String) (ttlSeconds : Nat)
    (v : SessionView) (now : Nat) : CacheState :=
  ⟨key, now + ttlSeconds * 1000, v⟩ :: c.filter (fun e => decide (e.key ≠ key))

/-- HybridAuthController.shouldRefreshCache: true once now has reached
the refreshAt timestamp of the cached snapshot. -/
def shouldRefreshCache (now : Nat) (v : SessionView) : Bool :=
  decide (v.sessionMetadata.refreshAt ≤ now)

/-- HybridAuthController.verifyToken: jwt.verify against JWT_SECRET with
no Bearer stripping and no type or userId checks; any error yields
null. -/
def hVerifyToken (env : Env) (now : Nat) (token : TokenStr) : Option String :=
  match jwtVerify env.accessSecret now token with
  | .ok decoded => some decoded.userId
  | .error _ => none

/-- Outcome of one HybridAuthController.getSessionData call: the
response payload (none models an unauthenticated error response), the
cache contents afterwards, and how many buildSessionData rebuilds the
call performed. -/
structure ReadOutcome where
  response : Option SessionView
  cache : CacheState
  builds : Nat
deriving DecidableEq

/-- HybridAuthController.getSessionData: verify the token; serve the
cached snapshot when one is present and shouldRefreshCache is false;
otherwise perform exactly one buildSessionData rebuild, store the fresh
snapshot through cacheSession (unless the user vanished) and return
it. -/
def getSessionData (env : Env) (users : UserStore) (c : CacheState)
    (token : TokenStr) (now : Nat) : ReadOutcome :=
  match hVerifyToken env now token with
  | none => ⟨none, c, 0⟩
  | some userId =>
      let key := "user_session:" ++ userId
      let cached := cacheGet c key now
      match cached with
      | some v =>
          if shouldRefreshCache now v = false then ⟨some v, c, 0⟩
          else
            match buildSessionData users userId now with
            | none => ⟨none, c, 1⟩
            | some fresh => ⟨some fresh, cacheSetex c key CACHE_TTL_SECONDS fresh now, 1⟩
      | none =>
          match buildSessionData users userId now with
          | none => ⟨none, c, 1⟩
          | some fresh => ⟨some fresh, cacheSetex c key CACHE_TTL_SECONDS fresh now, 1⟩

/-! Helper lemmas shared by the claim theorems. -/

/-- Successful jwt.verify characterization: the input is a well-formed
token signed with the given secret and not yet expired. -/
theorem jwtVerify_ok (secret : String) (now : Nat) (t : TokenStr) (p : Jwt)
    (h : jwtVerify secret now t = .ok p) :
    t = .jwt p ∧ p.secret = secret ∧ now < p.exp := by
  cases t with
  | jwt q =>
      simp only [jwtVerify] at h
      split_ifs at h with h1 h2
      cases h
      exact ⟨rfl, h1, by omega⟩
  | empty => simp [jwtVerify] at h
  | bearerThen rest => simp [jwtVerify] at h
  | wsThen rest => simp [jwtVerify] at h
  | garbage s => simp [jwtVerify] at h

/-- An updateFirst whose filter matches no element is the identity. -/
theorem updateFirst_of_no_match (p : SessionRecord → Bool)
    (f : SessionRecord → SessionRecord) (l : List SessionRecord)
    (h : ∀ s ∈ l, p s = false) : updateFirst p f l = l := by
  induction l with
  | nil => rfl
  | cons a l ih =>
      unfold updateFirst
      rw [h a (List.mem_cons_self a l)]
      simp only [Bool.false_eq_true, if_false]
      rw [ih (fun s hs => h s (List.mem_cons_of_mem a hs))]

/-- Action of updateFirst on a list decomposed at its first match. -/
theorem updateFirst_append (p : SessionRecord → Bool)
    (f : SessionRecord → SessionRecord) (l1 l2 : List SessionRecord)
    (s : SessionRecord) (h1 : ∀ x ∈ l1, p x = false) (hs : p s = true) :
    updateFirst p f (l1 ++ s :: l2) = l1 ++ f s :: l2 := by
  induction l1 with
  | nil => simp [updateFirst, hs]
  | cons a l1 ih =>
      have ha : p a = false := h1 a (List.mem_cons_self a l1)
      simp only [List.cons_append, updateFirst, ha, Bool.false_eq_true, if_false,
        List.cons.injEq, true_and]
      exact ih (fun x hx => h1 x (List.mem_cons_of_mem a hx))

/-- Shape of the metadata of every snapshot built by buildSessionData:
tokenExpiresAt is 24 hours from build time, refreshAt is five minutes
before tokenExpiresAt, and cacheExpiresAt is 30 minutes from build
time. -/
theorem buildSessionData_metadata (users : UserStore) (userId : String)
    (now : Nat) (v : SessionView) (h : buildSessionData users userId now = some v) :
    v.sessionMetadata =
      ⟨now + 24 * 60 * 60 * 1000,
       now + 24 * 60 * 60 * 1000 - REFRESH_BEFORE_EXPIRY_SECONDS * 1000,
       now + CACHE_TTL_SECONDS * 1000⟩ := by
  cases hf : users.find? (fun u => decide (u.id = userId)) with
  | none => simp [buildSessionData, hf] at h
  | some u =>
      cases hb : u.isActive with
      | false => simp [buildSessionData, hf, hb] at h
      | true =>
          have hv : buildSessionData users userId now =
              some ⟨u.id, u.email, u.name, u.role, u.isVerified,
                generatePermissions u.role,
                ⟨now + 24 * 60 * 60 * 1000,
                 now + 24 * 60 * 60 * 1000 - REFRESH_BEFORE_EXPIRY_SECONDS * 1000,
                 now + CACHE_TTL_SECONDS * 1000⟩⟩ := by
            simp [buildSessionData, hf, hb]
          rw [hv] at h
          cases h
          rfl

/-- Hashing any non-empty token succeeds with its digest. -/
theorem hashRefreshToken_ok (tok : TokenStr) (h : tok ≠ .empty) :
    hashRefreshToken tok = .ok (.digestHex tok) := by
  simp [hashRefreshToken, h]

/-- A successful stateless refresh verification implies non-empty input. -/
theorem verifyRefreshToken_ne_empty (env : Env) (now : Nat) (tok : TokenStr)
    (v : TokenValidationResult) (h : verifyRefreshToken env now tok = some v) :
    tok ≠ .empty := by
  intro he
  subst he
  simp [verifyRefreshToken] at h

/-- validateSession succeeds whenever the stateless verification passes
and findOne locates a matching active unexpired record. -/
theorem validateSession_isSome_of (env : Env) (now : Nat) (tok : TokenStr)
    (st : Store) (v : TokenValidationResult)
    (hv : verifyRefreshToken env now tok = some v) (hvv : v.isValid = true)
    (hf : (st.find? (sessionMatches (.digestHex tok) now)).isSome = true) :
    (validateSession env now tok st).fst.isSome = true := by
  have he := verifyRefreshToken_ne_empty env now tok v hv
  simp only [validateSession, if_neg he, hv, hvv, hashRefreshToken_ok tok he]
  rw [if_neg (by decide : ¬ (true : Bool) = false)]
  cases hfe : st.find? (sessionMatches (.digestHex tok) now) with
  | none => rw [hfe] at hf; simp at hf
  | some s => rfl

/-- validateSession returns null and leaves the store untouched whenever
no stored record passes the findOne filter. -/
theorem validateSession_none_of_noMatch (env : Env) (now : Nat) (tok : TokenStr)
    (st : Store)
    (h : ∀ s ∈ st, sessionMatches (.digestHex tok) now s = false) :
    validateSession env now tok st = (none, st) := by
  by_cases he : tok = .empty
  · simp [validateSession, he]
  · simp only [validateSession, if_neg he]
    cases hv : verifyRefreshToken env now tok with
    | none => rfl
    | some v =>
        cases hvv : v.isValid with
        | false => simp [hvv]
        | true =>
            simp only [hvv]
            rw [if_neg (by decide : ¬ (true : Bool) = false)]
            simp only [hashRefreshToken_ok tok he]
            rw [List.find?_eq_none.mpr (by intro s hs; simpa using h s hs)]

/-! Claim theorems. -/

/-- C2: for every non-empty principal id, generating an access token for
it through the token-pair issuance path and immediately verifying it with
verifyAccessToken yields a result with that userId and isValid true. -/
theorem c2_issue_then_verify (env : Env) (userId : String) (sd : SessionData)
    (now : Nat) (st : Store) (h : userId ≠ "") :
    ∃ accessToken refreshToken st2,
      generateTokenPair env userId sd now st = .ok (accessToken, refreshToken, st2) ∧
      verifyAccessToken env now accessToken = some ⟨userId, true, none⟩ := by
  refine ⟨.jwt ⟨userId, "access", env.accessSecret, now, now + ACCESS_TOKEN_EXPIRY_MS⟩,
          .jwt ⟨userId, "refresh", env.refreshSecret, now, now + REFRESH_TOKEN_EXPIRY_MS⟩,
          st ++ [recordFromHash userId
            (.digestHex (.jwt ⟨userId, "refresh", env.refreshSecret, now, now + REFRESH_TOKEN_EXPIRY_MS⟩))
            sd now], ?_, ?_⟩
  · have hga : generateAccessToken env userId now =
        .ok (.jwt ⟨userId, "access", env.accessSecret, now, now + ACCESS_TOKEN_EXPIRY_MS⟩) := by
      simp [generateAccessToken, h]
    have hgr : generateRefreshToken env userId now =
        .ok (.jwt ⟨userId, "refresh", env.refreshSecret, now, now + REFRESH_TOKEN_EXPIRY_MS⟩) := by
      simp [generateRefreshToken, h]
    have hcs : createSession userId
        (.jwt ⟨userId, "refresh", env.refreshSecret, now, now + REFRESH_TOKEN_EXPIRY_MS⟩)
        sd now st =
        .ok (st ++ [recordFromHash userId
          (.digestHex (.jwt ⟨userId, "refresh", env.refreshSecret, now, now + REFRESH_TOKEN_EXPIRY_MS⟩))
          sd now]) := by
      simp [createSession, hashRefreshToken, h]
    simp [generateTokenPair, hga, hgr, hcs]
  · have hexp : ¬ (now + ACCESS_TOKEN_EXPIRY_MS ≤ now) := by
      simp [ACCESS_TOKEN_EXPIRY_MS]
    simp [verifyAccessToken, stripBearer, jwtVerify, h, hexp]

/-- C2 witness: the property instantiated at a concrete principal. -/
theorem c2_witness :
    ("u1" : String) ≠ "" ∧
    ∃ accessToken refreshToken st2,
      generateTokenPair ⟨"sec", "refsec"⟩ "u1" ⟨"dev", "1.2.3.4", none⟩ 50 [] =
        .ok (accessToken, refreshToken, st2) ∧
      verifyAccessToken ⟨"sec", "refsec"⟩ 50 accessToken = some ⟨"u1", true, none⟩ :=
  ⟨by decide, c2_issue_then_verify ⟨"sec", "refsec"⟩ "u1" ⟨"dev", "1.2.3.4", none⟩ 50 []
    (by decide)⟩

/-- C7: a verifier only ever reports a valid result for a token whose
embedded type claim matches its own kind: a valid verifyAccessToken
result comes from an underlying token of type access (after Bearer
stripping), and a valid verifyRefreshToken result comes from a token of
type refresh; hence a structurally valid refresh token can never yield a
valid result from verifyAccessToken, nor an access token from
verifyRefreshToken. -/
theorem c7_type_discrimination (env : Env) (now : Nat) :
    (∀ token r, verifyAccessToken env now token = some r → r.isValid = true →
       ∃ p, stripBearer token = .jwt p ∧ p.type = "access" ∧ p.userId ≠ "" ∧
         p.secret = env.accessSecret ∧ now < p.exp ∧ r.userId = p.userId) ∧
    (∀ token r, verifyRefreshToken env now token = some r → r.isValid = true →
       ∃ p, token = .jwt p ∧ p.type = "refresh" ∧ p.userId ≠ "" ∧
         p.secret = env.refreshSecret ∧ now < p.exp ∧ r.userId = p.userId) := by
  constructor
  · intro token r hsome hvalid
    by_cases he : token = .empty
    · simp [verifyAccessToken, he] at hsome
    · simp only [verifyAccessToken, if_neg he] at hsome
      split at hsome
      next p heq =>
        obtain ⟨hstrip, hsec, hexp⟩ := jwtVerify_ok _ _ _ _ heq
        split_ifs at hsome with h1 h2
        cases hsome
        exact ⟨p, hstrip, by simpa using h1, h2, hsec, hexp, rfl⟩
      next e heq =>
        cases hsome
        cases hvalid
  · intro token r hsome hvalid
    by_cases he : token = .empty
    · simp [verifyRefreshToken, he] at hsome
    · simp only [verifyRefreshToken, if_neg he] at hsome
      split at hsome
      next p heq =>
        obtain ⟨hstrip, hsec, hexp⟩ := jwtVerify_ok _ _ _ _ heq
        split_ifs at hsome with h1 h2
        cases hsome
        exact ⟨p, hstrip, by simpa using h1, h2, hsec, hexp, rfl⟩
      next e heq =>
        cases hsome
        cases hvalid

/-- C7 witness: both parts instantiated at concrete valid tokens. -/
theorem c7_witness :
    (∃ p, stripBearer (.jwt ⟨"u", "access", "sec", 0, 900000⟩) = .jwt p ∧
       p.type = "access" ∧ p.userId ≠ "" ∧ p.secret = "sec" ∧ (0 : Nat) < p.exp ∧
       ("u" : String) = p.userId) ∧
    (∃ p, (TokenStr.jwt ⟨"u", "refresh", "refsec", 0, 604800000⟩) = .jwt p ∧
       p.type = "refresh" ∧ p.userId ≠ "" ∧ p.secret = "refsec" ∧ (0 : Nat) < p.exp ∧
       ("u" : String) = p.userId) :=
  ⟨(c7_type_discrimination ⟨"sec", "refsec"⟩ 0).1
      (.jwt ⟨"u", "access", "sec", 0, 900000⟩) ⟨"u", true, none⟩ (by decide) rfl,
   (c7_type_discrimination ⟨"sec", "refsec"⟩ 0).2
      (.jwt ⟨"u", "refresh", "refsec", 0, 604800000⟩) ⟨"u", true, none⟩ (by decide) rfl⟩

/-- C9: every session persisted by createSession stores exactly the
SHA-256 hex digest of the raw refresh token in its refreshTokenHash
field, and the stored document is recordFromHash applied to that digest:
the raw token enters the document only through the one-way hash, so no
field holds the raw token itself. The document is appended active with a
7-day expiry. -/
theorem c9_hash_only_storage (userId : String) (tok : TokenStr) (sd : SessionData)
    (now : Nat) (st : Store) (hu : userId ≠ "") (ht : tok ≠ .empty) :
    hashRefreshToken tok = .ok (.digestHex tok) ∧
    createSession userId tok sd now st =
      .ok (st ++ [recordFromHash userId (.digestHex tok) sd now]) ∧
    (recordFromHash userId (.digestHex tok) sd now).refreshTokenHash = .digestHex tok ∧
    (recordFromHash userId (.digestHex tok) sd now).isActive = true ∧
    (recordFromHash userId (.digestHex tok) sd now).expiresAt =
      now + 7 * 24 * 60 * 60 * 1000 := by
  refine ⟨?_, ?_, rfl, rfl, rfl⟩
  · simp [hashRefreshToken, ht]
  · simp [createSession, hashRefreshToken, hu, ht]

/-- C9 witness: the property instantiated at a concrete token. -/
theorem c9_witness :
    ("u1" : String) ≠ "" ∧
    (TokenStr.jwt ⟨"u1", "refresh", "refsec", 0, 604800000⟩) ≠ .empty ∧
    (hashRefreshToken (.jwt ⟨"u1", "refresh", "refsec", 0, 604800000⟩) =
       .ok (.digestHex (.jwt ⟨"u1", "refresh", "refsec", 0, 604800000⟩)) ∧
     createSession "u1" (.jwt ⟨"u1", "refresh", "refsec", 0, 604800000⟩)
         ⟨"dev", "ip", none⟩ 0 [] =
       .ok ([] ++ [recordFromHash "u1"
         (.digestHex (.jwt ⟨"u1", "refresh", "refsec", 0, 604800000⟩))
         ⟨"dev", "ip", none⟩ 0]) ∧
     (recordFromHash "u1" (.digestHex (.jwt ⟨"u1", "refresh", "refsec", 0, 604800000⟩))
         ⟨"dev", "ip", none⟩ 0).refreshTokenHash =
       .digestHex (.jwt ⟨"u1", "refresh", "refsec", 0, 604800000⟩) ∧
     (recordFromHash "u1" (.digestHex (.jwt ⟨"u1", "refresh", "refsec", 0, 604800000⟩))
         ⟨"dev", "ip", none⟩ 0).isActive = true ∧
     (recordFromHash "u1" (.digestHex (.jwt ⟨"u1", "refresh", "refsec", 0, 604800000⟩))
         ⟨"dev", "ip", none⟩ 0).expiresAt = 0 + 7 * 24 * 60 * 60 * 1000) :=
  ⟨by decide, by decide,
   c9_hash_only_storage "u1" (.jwt ⟨"u1", "refresh", "refsec", 0, 604800000⟩)
     ⟨"dev", "ip", none⟩ 0 [] (by decide) (by decide)⟩

/-- C5 counterexample: a snapshot built and stored by the session read
path (here on a cache miss at time 0 for an active student user) has
refreshAt 86100000 (five minutes before the 24-hour token expiry) but a
hard cache expiry of cachedAt + ttlSeconds = 1800000, so the claimed
invariant refreshAt less than expiresAt fails for the cache hard
expiry. -/
theorem c5_counterexample :
    getSessionData ⟨"sec", "refsec"⟩ [⟨"u1", "e", "n", "student", true, true⟩] []
        (.jwt ⟨"u1", "access", "sec", 0, 900000⟩) 0 =
      ⟨some ⟨"u1", "e", "n", "student", true, ⟨true, false, false, false, 3⟩,
         ⟨86400000, 86100000, 1800000⟩⟩,
       [⟨"user_session:u1", 1800000,
         ⟨"u1", "e", "n", "student", true, ⟨true, false, false, false, 3⟩,
          ⟨86400000, 86100000, 1800000⟩⟩⟩], 1⟩ ∧
    ¬ ((⟨86400000, 86100000, 1800000⟩ : SessionMetadata).refreshAt <
       (⟨86400000, 86100000, 1800000⟩ : SessionMetadata).cacheExpiresAt) := by
  constructor
  · decide
  · decide

/-- C5 (amended): every snapshot built by buildSessionData satisfies
refreshAt strictly less than tokenExpiresAt, but refreshAt is computed
from the 24-hour token expiry, not from the cache hard expiry, so
cacheExpiresAt (cachedAt + ttlSeconds) is strictly below refreshAt; the
claimed inequality holds only against tokenExpiresAt. -/
theorem c5_snapshot_metadata (users : UserStore) (userId : String) (now : Nat)
    (v : SessionView) (h : buildSessionData users userId now = some v) :
    v.sessionMetadata.tokenExpiresAt = now + 24 * 60 * 60 * 1000 ∧
    v.sessionMetadata.refreshAt =
      now + 24 * 60 * 60 * 1000 - REFRESH_BEFORE_EXPIRY_SECONDS * 1000 ∧
    v.sessionMetadata.cacheExpiresAt = now + CACHE_TTL_SECONDS * 1000 ∧
    v.sessionMetadata.refreshAt < v.sessionMetadata.tokenExpiresAt ∧
    v.sessionMetadata.cacheExpiresAt < v.sessionMetadata.refreshAt := by
  have hm := buildSessionData_metadata users userId now v h
  rw [hm]
  refine ⟨rfl, rfl, rfl, ?_, ?_⟩
  · simp only [REFRESH_BEFORE_EXPIRY_SECONDS]
    omega
  · simp only [REFRESH_BEFORE_EXPIRY_SECONDS, CACHE_TTL_SECONDS]
    omega

/-- C5 witness: the amended property instantiated at a concrete build. -/
theorem c5_witness :
    buildSessionData [⟨"u1", "e", "n", "student", true, true⟩] "u1" 0 =
      some ⟨"u1", "e", "n", "student", true, ⟨true, false, false, false, 3⟩,
        ⟨86400000, 86100000, 1800000⟩⟩ ∧
    ((⟨"u1", "e", "n", "student", true, ⟨true, false, false, false, 3⟩,
        ⟨86400000, 86100000, 1800000⟩⟩ : SessionView).sessionMetadata.tokenExpiresAt =
          0 + 24 * 60 * 60 * 1000 ∧
     (⟨"u1", "e", "n", "student", true, ⟨true, false, false, false, 3⟩,
        ⟨86400000, 86100000, 1800000⟩⟩ : SessionView).sessionMetadata.refreshAt =
          0 + 24 * 60 * 60 * 1000 - REFRESH_BEFORE_EXPIRY_SECONDS * 1000 ∧
     (⟨"u1", "e", "n", "student", true, ⟨true, false, false, false, 3⟩,
        ⟨86400000, 86100000, 1800000⟩⟩ : SessionView).sessionMetadata.cacheExpiresAt =
          0 + CACHE_TTL_SECONDS * 1000 ∧
     (⟨"u1", "e", "n", "student", true, ⟨true, false, false, false, 3⟩,
        ⟨86400000, 86100000, 1800000⟩⟩ : SessionView).sessionMetadata.refreshAt <
       (⟨"u1", "e", "n", "student", true, ⟨true, false, false, false, 3⟩,
        ⟨86400000, 86100000, 1800000⟩⟩ : SessionView).sessionMetadata.tokenExpiresAt ∧
     (⟨"u1", "e", "n", "student", true, ⟨true, false, false, false, 3⟩,
        ⟨86400000, 86100000, 1800000⟩⟩ : SessionView).sessionMetadata.cacheExpiresAt <
       (⟨"u1", "e", "n", "student", true, ⟨true, false, false, false, 3⟩,
        ⟨86400000, 86100000, 1800000⟩⟩ : SessionView).sessionMetadata.refreshAt) :=
  ⟨by decide,
   c5_snapshot_metadata [⟨"u1", "e", "n", "student", true, true⟩] "u1" 0
     ⟨"u1", "e", "n", "student", true, ⟨true, false, false, false, 3⟩,
       ⟨86400000, 86100000, 1800000⟩⟩ (by decide)⟩

/-- C10 counterexample: prefixing with Bearer-and-a-space is not an
invariant of verifyAccessToken. At t the empty string, the prefixed
token yields the invalid-signature result while the bare token yields
null; at t itself a Bearer-prefixed valid token, the bare token verifies
while the prefixed one fails, because the regex replaces only one leading
Bearer run. -/
theorem c10_counterexample :
    verifyAccessToken ⟨"sec", "refsec"⟩ 0 (.bearerThen .empty) =
      some ⟨"", false, some "Invalid token signature"⟩ ∧
    verifyAccessToken ⟨"sec", "refsec"⟩ 0 .empty = none ∧
    verifyAccessToken ⟨"sec", "refsec"⟩ 0
        (.bearerThen (.jwt ⟨"u", "access", "sec", 0, 900000⟩)) =
      some ⟨"u", true, none⟩ ∧
    verifyAccessToken ⟨"sec", "refsec"⟩ 0
        (.bearerThen (.bearerThen (.jwt ⟨"u", "access", "sec", 0, 900000⟩))) =
      some ⟨"", false, some "Invalid token signature"⟩ := by
  refine ⟨by decide, by decide, by decide, by decide⟩

/-- C10 (amended): the Bearer-invariance of verifyAccessToken holds for
every token that is non-empty, does not begin with whitespace and does
not itself begin with a case-insensitive Bearer-plus-whitespace run
(that is, a well-formed JWT or a garbage string); and verifyRefreshToken
performs no stripping, so every Bearer-prefixed input fails it with the
generic invalid result. -/
theorem c10_bearer_invariance (env : Env) (now : Nat) :
    (∀ p, verifyAccessToken env now (.bearerThen (.jwt p)) =
            verifyAccessToken env now (.jwt p)) ∧
    (∀ s, verifyAccessToken env now (.bearerThen (.garbage s)) =
            verifyAccessToken env now (.garbage s)) ∧
    (∀ t, verifyRefreshToken env now (.bearerThen t) =
            some ⟨"", false, some "Invalid token signature"⟩) := by
  refine ⟨fun p => ?_, fun s => ?_, fun t => ?_⟩
  · simp [verifyAccessToken, stripBearer, dropLeadingWs]
  · simp [verifyAccessToken, stripBearer, dropLeadingWs]
  · simp [verifyRefreshToken, jwtVerify]

/-- Re-writing isActive false on an already-inactive record is the
identity on the record. -/
theorem deactivate_eq_self (s : SessionRecord) (h : s.isActive = false) :
    { s with isActive := false } = s := by
  cases s
  simp_all

/-- C4: revokeSession is idempotent and a no-op on already-revoked or
nonexistent sessions: on a non-empty credential it does not raise, and
when no stored record matches the hash, or when the first matching
record already has isActive false, every stored record is left
completely unchanged, its revokedAt included. The revokedAt value the
service passes to updateOne is stripped by mongoose strict mode (the
schema has no revokedAt path), so the update writes only isActive,
which is already false. -/
theorem c4_idempotent_noop (tok : TokenStr) (now : Nat) (ht : tok ≠ .empty) :
    (∀ st : Store, (∀ s ∈ st, s.refreshTokenHash ≠ .digestHex tok) →
       revokeSession tok now st = .ok st) ∧
    (∀ (st1 st2 : Store) (s : SessionRecord),
       (∀ x ∈ st1, x.refreshTokenHash ≠ .digestHex tok) →
       s.refreshTokenHash = .digestHex tok → s.isActive = false →
       revokeSession tok now (st1 ++ s :: st2) = .ok (st1 ++ s :: st2)) := by
  refine ⟨fun st hno => ?_, fun st1 st2 s hno hs hin => ?_⟩
  · simp only [revokeSession, hashRefreshToken, if_neg ht]
    rw [updateFirst_of_no_match]
    intro s hs
    simpa using hno s hs
  · simp only [revokeSession, hashRefreshToken, if_neg ht]
    rw [updateFirst_append]
    · rw [deactivate_eq_self s hin]
    · intro x hx
      simpa using hno x hx
    · simpa using hs

/-- C4 witness: both no-op scenarios instantiated concretely: a store
whose only record carries a different hash, and a store whose only
record matches the hash but is already revoked. -/
theorem c4_witness :
    revokeSession (.jwt ⟨"u", "refresh", "refsec", 0, 604800000⟩) 10
        [⟨"v", .digestHex (.garbage "other"), "dev", "ip", none, 604800000, true, 0, 0, none⟩] =
      .ok [⟨"v", .digestHex (.garbage "other"), "dev", "ip", none, 604800000, true, 0, 0, none⟩] ∧
    revokeSession (.jwt ⟨"u", "refresh", "refsec", 0, 604800000⟩) 10
        ([] ++ ⟨"u", .digestHex (.jwt ⟨"u", "refresh", "refsec", 0, 604800000⟩),
            "dev", "ip", none, 604800000, false, 0, 0, none⟩ ::
          ([] : Store)) =
      .ok ([] ++ ⟨"u", .digestHex (.jwt ⟨"u", "refresh", "refsec", 0, 604800000⟩),
            "dev", "ip", none, 604800000, false, 0, 0, none⟩ :: ([] : Store)) := by
  have h := c4_idempotent_noop (.jwt ⟨"u", "refresh", "refsec", 0, 604800000⟩) 10 (by decide)
  refine ⟨h.1 _ ?_, ?_⟩
  · intro s hs
    rw [List.mem_singleton] at hs
    subst hs
    decide
  · exact h.2 [] []
      ⟨"u", .digestHex (.jwt ⟨"u", "refresh", "refsec", 0, 604800000⟩),
        "dev", "ip", none, 604800000, false, 0, 0, none⟩
      (by intro x hx; cases hx) (by decide) (by decide)

/-- C3 counterexample: the deactivation does not set revokedAt. The
revokedAt value the service passes to updateMany is stripped by mongoose
strict mode because the schema declares no revokedAt path, so the
deactivated record keeps revokedAt at none. -/
theorem c3_counterexample :
    revokeAllUserSessions "u" 5
        [⟨"u", .digestHex (.garbage "t"), "d", "i", none, 100, true, 0, 0, none⟩] =
      .ok (1, [⟨"u", .digestHex (.garbage "t"), "d", "i", none, 100, false, 0, 0, none⟩]) ∧
    (⟨"u", .digestHex (.garbage "t"), "d", "i", none, 100, false, 0, 0, none⟩ :
        SessionRecord).revokedAt = none := by
  refine ⟨by decide, by decide⟩

/-- C3 (amended): revokeAllUserSessions deactivates (isActive false)
exactly those records of the principal that are active at the time of
the call, returns exactly their number, and leaves every other record
unchanged; a session created for the principal after the call (through
createSession with a fresh refresh token) still validates. It does NOT
set revokedAt on the deactivated records: the schema has no revokedAt
path and mongoose strict mode strips the written value, so each
deactivated record differs from its previous state only in isActive. -/
theorem c3_revoke_all_users (userId : String) (now : Nat) (st : Store)
    (hu : userId ≠ "") :
    ∃ cnt st2, revokeAllUserSessions userId now st = .ok (cnt, st2) ∧
      cnt = (st.filter (fun s => decide (s.userId = userId) && s.isActive)).length ∧
      (∀ s ∈ st2, s.userId = userId → s.isActive = false) ∧
      (∀ s ∈ st, s.userId = userId → s.isActive = true →
         { s with isActive := false } ∈ st2) ∧
      (∀ s ∈ st, (s.userId = userId → s.isActive = false) → s ∈ st2) ∧
      (∀ (env : Env) (sd : SessionData) (now2 now3 : Nat),
        now3 < now2 + REFRESH_TOKEN_EXPIRY_MS →
        ∃ st3,
          createSession userId
            (.jwt ⟨userId, "refresh", env.refreshSecret, now2, now2 + REFRESH_TOKEN_EXPIRY_MS⟩)
            sd now2 st2 = .ok st3 ∧
          (validateSession env now3
            (.jwt ⟨userId, "refresh", env.refreshSecret, now2, now2 + REFRESH_TOKEN_EXPIRY_MS⟩)
            st3).fst.isSome = true) := by
  refine ⟨(st.filter (fun s => decide (s.userId = userId) && s.isActive)).length,
          st.map (fun s => if decide (s.userId = userId) && s.isActive then
            { s with isActive := false } else s),
          ?_, rfl, ?_, ?_, ?_, ?_⟩
  · simp only [revokeAllUserSessions]
    rw [if_neg hu]
  · intro s hs hsuid
    obtain ⟨x, hx, hgx⟩ := List.mem_map.mp hs
    by_cases hc : decide (x.userId = userId) && x.isActive
    · rw [if_pos hc] at hgx
      rw [← hgx]
    · rw [if_neg hc] at hgx
      subst hgx
      rcases Bool.and_eq_false_iff.mp (Bool.not_eq_true _ |>.mp hc) with h1 | h2
      · exact absurd hsuid (by simpa using h1)
      · exact h2
  · intro s hs hsuid hact
    have : (if decide (s.userId = userId) && s.isActive then
        { s with isActive := false } else s) =
        { s with isActive := false } := by
      rw [if_pos (by simp [hsuid, hact])]
    exact this ▸ List.mem_map_of_mem _ hs
  · intro s hs hinact
    have : (if decide (s.userId = userId) && s.isActive then
        { s with isActive := false } else s) = s := by
      by_cases hsu : s.userId = userId
      · rw [if_neg (by simp [hsu, hinact hsu])]
      · rw [if_neg (by simp [hsu])]
    exact this ▸ List.mem_map_of_mem _ hs
  · intro env sd now2 now3 h3
    refine ⟨(st.map (fun s => if decide (s.userId = userId) && s.isActive then
          { s with isActive := false } else s)) ++
        [recordFromHash userId
          (.digestHex (.jwt ⟨userId, "refresh", env.refreshSecret, now2, now2 + REFRESH_TOKEN_EXPIRY_MS⟩))
          sd now2], by simp [createSession, hashRefreshToken, hu], ?_⟩
    apply validateSession_isSome_of _ _ _ _ ⟨userId, true, none⟩
    · have hne : ¬ (now2 + REFRESH_TOKEN_EXPIRY_MS ≤ now3) := by omega
      simp [verifyRefreshToken, jwtVerify, hu, hne]
    · rfl
    · rw [List.find?_isSome]
      refine ⟨recordFromHash userId
        (.digestHex (.jwt ⟨userId, "refresh", env.refreshSecret, now2, now2 + REFRESH_TOKEN_EXPIRY_MS⟩))
        sd now2, by simp, ?_⟩
      simp only [REFRESH_TOKEN_EXPIRY_MS] at h3
      simp [sessionMatches, recordFromHash]
      omega

/-- C3 witness: the property instantiated on a store holding one active
session of the principal. -/
theorem c3_witness :
    ∃ cnt st2,
      revokeAllUserSessions "u" 0
          [⟨"u", .digestHex (.garbage "t1"), "d", "i", none, 100, true, 0, 0, none⟩] =
        .ok (cnt, st2) ∧
      cnt = (([⟨"u", .digestHex (.garbage "t1"), "d", "i", none, 100, true, 0, 0, none⟩] :
          Store).filter (fun s => decide (s.userId = "u") && s.isActive)).length ∧
      (∀ s ∈ st2, s.userId = "u" → s.isActive = false) ∧
      (∀ s ∈ ([⟨"u", .digestHex (.garbage "t1"), "d", "i", none, 100, true, 0, 0, none⟩] :
          Store), s.userId = "u" → s.isActive = true →
         { s with isActive := false } ∈ st2) ∧
      (∀ s ∈ ([⟨"u", .digestHex (.garbage "t1"), "d", "i", none, 100, true, 0, 0, none⟩] :
          Store), (s.userId = "u" → s.isActive = false) → s ∈ st2) ∧
      (∀ (env : Env) (sd : SessionData) (now2 now3 : Nat),
        now3 < now2 + REFRESH_TOKEN_EXPIRY_MS →
        ∃ st3,
          createSession "u"
            (.jwt ⟨"u", "refresh", env.refreshSecret, now2, now2 + REFRESH_TOKEN_EXPIRY_MS⟩)
            sd now2 st2 = .ok st3 ∧
          (validateSession env now3
            (.jwt ⟨"u", "refresh", env.refreshSecret, now2, now2 + REFRESH_TOKEN_EXPIRY_MS⟩)
            st3).fst.isSome = true) :=
  c3_revoke_all_users "u" 0
    [⟨"u", .digestHex (.garbage "t1"), "d", "i", none, 100, true, 0, 0, none⟩]
    (by decide)

/-- C6 counterexample: for a cache entry whose metadata satisfies the
claimed staleness window (refreshAt 100 elapsed at now 200, expiresAt
1000000000 not elapsed, for either reading of expiresAt), the read does
trigger exactly one rebuild, but the returned snapshot's expiry fields
(cacheExpiresAt 1800200, tokenExpiresAt 86400200) are strictly earlier,
not later, than the previous entry's expiresAt 1000000000. Such an entry
is never produced by the controller itself: code-built entries have
refreshAt far beyond their cache hard expiry, making the claimed window
unreachable (see the C5 result). -/
theorem c6_counterexample :
    (⟨1000000000, 100, 1000000000⟩ : SessionMetadata).refreshAt ≤ 200 ∧
    200 < (⟨1000000000, 100, 1000000000⟩ : SessionMetadata).cacheExpiresAt ∧
    200 < (⟨1000000000, 100, 1000000000⟩ : SessionMetadata).tokenExpiresAt ∧
    getSessionData ⟨"sec", "refsec"⟩ [⟨"u1", "e", "n", "student", true, true⟩]
        [⟨"user_session:u1", 1000000000,
          ⟨"u1", "e", "n", "student", true, ⟨true, false, false, false, 3⟩,
           ⟨1000000000, 100, 1000000000⟩⟩⟩]
        (.jwt ⟨"u1", "access", "sec", 0, 1000000000⟩) 200 =
      ⟨some ⟨"u1", "e", "n", "student", true, ⟨true, false, false, false, 3⟩,
         ⟨86400200, 86100200, 1800200⟩⟩,
       [⟨"user_session:u1", 1800200,
         ⟨"u1", "e", "n", "student", true, ⟨true, false, false, false, 3⟩,
          ⟨86400200, 86100200, 1800200⟩⟩⟩], 1⟩ ∧
    ¬ ((⟨1000000000, 100, 1000000000⟩ : SessionMetadata).cacheExpiresAt <
       (⟨86400200, 86100200, 1800200⟩ : SessionMetadata).cacheExpiresAt) ∧
    ¬ ((⟨1000000000, 100, 1000000000⟩ : SessionMetadata).tokenExpiresAt <
       (⟨86400200, 86100200, 1800200⟩ : SessionMetadata).tokenExpiresAt) := by
  refine ⟨by decide, by decide, by decide, by decide, by decide, by decide⟩

/-- C6 (amended): for a cache entry that the controller itself wrote
(built by buildSessionData at some time t0 and stored with the setex
deadline t0 + ttl), once refreshAt has elapsed the entry has already
passed its hard cache deadline, so the next read misses the cache,
performs exactly one blocking rebuild, stores the fresh snapshot in
place of the entry, and both expiry fields of the returned snapshot are
strictly later than those of the old entry. -/
theorem c6_stale_read_rebuild (env : Env) (users users0 : UserStore)
    (c : CacheState) (tok : TokenStr) (now t0 : Nat) (uid : String)
    (v0 v1 : SessionView)
    (htok : hVerifyToken env now tok = some uid)
    (hv0 : buildSessionData users0 uid t0 = some v0)
    (hc : c.find? (fun e => decide (e.key = "user_session:" ++ uid)) =
            some ⟨"user_session:" ++ uid, t0 + CACHE_TTL_SECONDS * 1000, v0⟩)
    (hstale : v0.sessionMetadata.refreshAt ≤ now)
    (_hnotexp : now < v0.sessionMetadata.tokenExpiresAt)
    (hbuild : buildSessionData users uid now = some v1) :
    getSessionData env users c tok now =
      ⟨some v1, cacheSetex c ("user_session:" ++ uid) CACHE_TTL_SECONDS v1 now, 1⟩ ∧
    v0.sessionMetadata.cacheExpiresAt < v1.sessionMetadata.cacheExpiresAt ∧
    v0.sessionMetadata.tokenExpiresAt < v1.sessionMetadata.tokenExpiresAt := by
  have hm0 := buildSessionData_metadata users0 uid t0 v0 hv0
  have hm1 := buildSessionData_metadata users uid now v1 hbuild
  have ht0now : t0 + CACHE_TTL_SECONDS * 1000 < now := by
    rw [hm0] at hstale
    simp only [REFRESH_BEFORE_EXPIRY_SECONDS] at hstale
    simp only [CACHE_TTL_SECONDS]
    omega
  have hmiss : cacheGet c ("user_session:" ++ uid) now = none := by
    simp only [cacheGet, hc]
    rw [if_neg (by omega)]
  refine ⟨?_, ?_, ?_⟩
  · simp only [getSessionData, htok, hmiss, hbuild]
  · rw [hm0, hm1]
    show t0 + CACHE_TTL_SECONDS * 1000 < now + CACHE_TTL_SECONDS * 1000
    simp only [CACHE_TTL_SECONDS] at ht0now ⊢
    omega
  · rw [hm0, hm1]
    show t0 + 24 * 60 * 60 * 1000 < now + 24 * 60 * 60 * 1000
    simp only [CACHE_TTL_SECONDS] at ht0now
    omega

/-- C6 witness: the amended property instantiated at a concrete stale
entry written at time 0 and read at time 86100000. -/
theorem c6_witness :
    getSessionData ⟨"sec", "refsec"⟩ [⟨"u1", "e", "n", "student", true, true⟩]
        [⟨"user_session:u1", 1800000,
          ⟨"u1", "e", "n", "student", true, ⟨true, false, false, false, 3⟩,
           ⟨86400000, 86100000, 1800000⟩⟩⟩]
        (.jwt ⟨"u1", "access", "sec", 0, 90000000⟩) 86100000 =
      ⟨some ⟨"u1", "e", "n", "student", true, ⟨true, false, false, false, 3⟩,
         ⟨86100000 + 24 * 60 * 60 * 1000,
          86100000 + 24 * 60 * 60 * 1000 - 300 * 1000,
          86100000 + 1800 * 1000⟩⟩,
       cacheSetex
         [⟨"user_session:u1", 1800000,
           ⟨"u1", "e", "n", "student", true, ⟨true, false, false, false, 3⟩,
            ⟨86400000, 86100000, 1800000⟩⟩⟩]
         ("user_session:" ++ "u1") CACHE_TTL_SECONDS
         ⟨"u1", "e", "n", "student", true, ⟨true, false, false, false, 3⟩,
          ⟨86100000 + 24 * 60 * 60 * 1000,
           86100000 + 24 * 60 * 60 * 1000 - 300 * 1000,
           86100000 + 1800 * 1000⟩⟩ 86100000, 1⟩ ∧
    (⟨86400000, 86100000, 1800000⟩ : SessionMetadata).cacheExpiresAt <
      (⟨86100000 + 24 * 60 * 60 * 1000,
        86100000 + 24 * 60 * 60 * 1000 - 300 * 1000,
        86100000 + 1800 * 1000⟩ : SessionMetadata).cacheExpiresAt ∧
    (⟨86400000, 86100000, 1800000⟩ : SessionMetadata).tokenExpiresAt <
      (⟨86100000 + 24 * 60 * 60 * 1000,
        86100000 + 24 * 60 * 60 * 1000 - 300 * 1000,
        86100000 + 1800 * 1000⟩ : SessionMetadata).tokenExpiresAt :=
  c6_stale_read_rebuild ⟨"sec", "refsec"⟩
    [⟨"u1", "e", "n", "student", true, true⟩]
    [⟨"u1", "e", "n", "student", true, true⟩]
    [⟨"user_session:u1", 1800000,
      ⟨"u1", "e", "n", "student", true, ⟨true, false, false, false, 3⟩,
       ⟨86400000, 86100000, 1800000⟩⟩⟩]
    (.jwt ⟨"u1", "access", "sec", 0, 90000000⟩) 86100000 0 "u1"
    ⟨"u1", "e", "n", "student", true, ⟨true, false, false, false, 3⟩,
      ⟨86400000, 86100000, 1800000⟩⟩
    ⟨"u1", "e", "n", "student", true, ⟨true, false, false, false, 3⟩,
      ⟨86100000 + 24 * 60 * 60 * 1000,
       86100000 + 24 * 60 * 60 * 1000 - 300 * 1000,
       86100000 + 1800 * 1000⟩⟩
    (by decide) (by decide) (by decide) (by decide) (by decide) (by decide)

/-- If at most one record carries the hash, updating the first match to
inactive leaves no active record with that hash. -/
theorem updateFirst_unique_deactivation (h : Sha256)
    (l : List SessionRecord)
    (hlen : (l.filter (fun s => decide (s.refreshTokenHash = h))).length ≤ 1) :
    ∀ s ∈ updateFirst (fun s => decide (s.refreshTokenHash = h))
        (fun s => { s with isActive := false }) l,
      s.refreshTokenHash = h → s.isActive = false := by
  induction l with
  | nil => intro s hs; cases hs
  | cons a l ih =>
      intro s hs hsh
      by_cases pa : a.refreshTokenHash = h
      · rw [show updateFirst (fun s => decide (s.refreshTokenHash = h))
            (fun s => { s with isActive := false }) (a :: l) =
            { a with isActive := false } :: l from by simp [updateFirst, pa]] at hs
        rcases List.mem_cons.mp hs with rfl | hsl
        · rfl
        · exfalso
          have hfl : (l.filter (fun s => decide (s.refreshTokenHash = h))).length = 0 := by
            have : (a :: l).filter (fun s => decide (s.refreshTokenHash = h)) =
                a :: l.filter (fun s => decide (s.refreshTokenHash = h)) := by
              simp [List.filter_cons, pa]
            rw [this] at hlen
            simp only [List.length_cons] at hlen
            omega
          have : s ∈ l.filter (fun s => decide (s.refreshTokenHash = h)) :=
            List.mem_filter.mpr ⟨hsl, by simpa using hsh⟩
          rw [List.length_eq_zero.mp hfl] at this
          cases this
      · rw [show updateFirst (fun s => decide (s.refreshTokenHash = h))
            (fun s => { s with isActive := false }) (a :: l) =
            a :: updateFirst (fun s => decide (s.refreshTokenHash = h))
              (fun s => { s with isActive := false }) l from by
          simp [updateFirst, pa]] at hs
        rcases List.mem_cons.mp hs with rfl | hsl
        · exact absurd hsh pa
        · have hlen2 : (l.filter (fun s => decide (s.refreshTokenHash = h))).length ≤ 1 := by
            have : (a :: l).filter (fun s => decide (s.refreshTokenHash = h)) =
                l.filter (fun s => decide (s.refreshTokenHash = h)) := by
              simp [List.filter_cons, pa]
            rw [this] at hlen
            exact hlen
          exact ih hlen2 s hsl hsh

/-- C1 counterexample: revocation is not final when two stored records
share the hash of R, which is reachable through the public API: two
token-pair issuances for the same principal at the same timestamp mint
the identical refresh credential and create two session records (no
unique index exists on refreshTokenHash), and revokeSession, an updateOne
on the hash alone, deactivates only the first, so a subsequent
validateSession(R) still succeeds. -/
theorem c1_counterexample :
    generateTokenPair ⟨"sec", "refsec"⟩ "u" ⟨"d", "ip", none⟩ 0 [] =
      .ok (.jwt ⟨"u", "access", "sec", 0, 900000⟩,
           .jwt ⟨"u", "refresh", "refsec", 0, 604800000⟩,
           [⟨"u", .digestHex (.jwt ⟨"u", "refresh", "refsec", 0, 604800000⟩),
             "d", "ip", none, 604800000, true, 0, 0, none⟩]) ∧
    generateTokenPair ⟨"sec", "refsec"⟩ "u" ⟨"d", "ip", none⟩ 0
        [⟨"u", .digestHex (.jwt ⟨"u", "refresh", "refsec", 0, 604800000⟩),
          "d", "ip", none, 604800000, true, 0, 0, none⟩] =
      .ok (.jwt ⟨"u", "access", "sec", 0, 900000⟩,
           .jwt ⟨"u", "refresh", "refsec", 0, 604800000⟩,
           [⟨"u", .digestHex (.jwt ⟨"u", "refresh", "refsec", 0, 604800000⟩),
             "d", "ip", none, 604800000, true, 0, 0, none⟩,
            ⟨"u", .digestHex (.jwt ⟨"u", "refresh", "refsec", 0, 604800000⟩),
             "d", "ip", none, 604800000, true, 0, 0, none⟩]) ∧
    revokeSession (.jwt ⟨"u", "refresh", "refsec", 0, 604800000⟩) 0
        [⟨"u", .digestHex (.jwt ⟨"u", "refresh", "refsec", 0, 604800000⟩),
          "d", "ip", none, 604800000, true, 0, 0, none⟩,
         ⟨"u", .digestHex (.jwt ⟨"u", "refresh", "refsec", 0, 604800000⟩),
          "d", "ip", none, 604800000, true, 0, 0, none⟩] =
      .ok [⟨"u", .digestHex (.jwt ⟨"u", "refresh", "refsec", 0, 604800000⟩),
            "d", "ip", none, 604800000, false, 0, 0, none⟩,
           ⟨"u", .digestHex (.jwt ⟨"u", "refresh", "refsec", 0, 604800000⟩),
            "d", "ip", none, 604800000, true, 0, 0, none⟩] ∧
    (validateSession ⟨"sec", "refsec"⟩ 0
        (.jwt ⟨"u", "refresh", "refsec", 0, 604800000⟩)
        [⟨"u", .digestHex (.jwt ⟨"u", "refresh", "refsec", 0, 604800000⟩),
          "d", "ip", none, 604800000, false, 0, 0, none⟩,
         ⟨"u", .digestHex (.jwt ⟨"u", "refresh", "refsec", 0, 604800000⟩),
          "d", "ip", none, 604800000, true, 0, 0, none⟩]).fst = some "u" := by
  refine ⟨by decide, by decide, by decide, by decide⟩

/-- C1 (amended): validateSession returns a principal exactly when the
stateless refresh verification passes and a stored record matching the
hash is active and unexpired, and the returned id is the userId of the
record findOne locates; revokeSession makes every subsequent
validateSession(R) return null provided at most one stored record
carries the hash of R (the intended 1:1 invariant, which the code does
not enforce); and once no active record carries the hash,
validateSession returns null and leaves the store unchanged, so every
further call also returns null. -/
theorem c1_validate_revoke_characterization :
    (∀ (env : Env) (now : Nat) (tok : TokenStr) (st : Store),
       ((validateSession env now tok st).fst.isSome = true ↔
         ((∃ v, verifyRefreshToken env now tok = some v ∧ v.isValid = true) ∧
          ∃ s ∈ st, sessionMatches (.digestHex tok) now s = true)) ∧
       (∀ uid, (validateSession env now tok st).fst = some uid →
          ∃ s ∈ st, sessionMatches (.digestHex tok) now s = true ∧ s.userId = uid)) ∧
    (∀ (now : Nat) (tok : TokenStr) (st st2 : Store),
       (st.filter (fun s => decide (s.refreshTokenHash = Sha256.digestHex tok))).length ≤ 1 →
       revokeSession tok now st = .ok st2 →
       ∀ s ∈ st2, s.refreshTokenHash = .digestHex tok → s.isActive = false) ∧
    (∀ (env : Env) (now : Nat) (tok : TokenStr) (st : Store),
       (∀ s ∈ st, s.refreshTokenHash = .digestHex tok → s.isActive = false) →
       validateSession env now tok st = (none, st)) := by
  refine ⟨?_, ?_, ?_⟩
  · intro env now tok st
    by_cases he : tok = .empty
    · subst he
      have heq : validateSession env now TokenStr.empty st = (none, st) := by
        simp [validateSession]
      refine ⟨?_, ?_⟩
      · rw [heq]
        constructor
        · intro hL; simp at hL
        · rintro ⟨⟨v, hv, -⟩, -⟩
          exact absurd hv (by simp [verifyRefreshToken])
      · intro uid huid
        rw [heq] at huid
        exact Option.noConfusion huid
    · cases hv : verifyRefreshToken env now tok with
      | none =>
          have heq : validateSession env now tok st = (none, st) := by
            simp only [validateSession, if_neg he, hv]
          refine ⟨?_, ?_⟩
          · rw [heq]
            constructor
            · intro hL; simp at hL
            · rintro ⟨⟨v, hv2, -⟩, -⟩
              exact Option.noConfusion hv2
          · intro uid huid
            rw [heq] at huid
            exact Option.noConfusion huid
      | some v =>
          cases hvv : v.isValid with
          | false =>
              have heq : validateSession env now tok st = (none, st) := by
                simp only [validateSession, if_neg he, hv, hvv]
                simp
              refine ⟨?_, ?_⟩
              · rw [heq]
                constructor
                · intro hL; simp at hL
                · rintro ⟨⟨v2, hv2, hval⟩, -⟩
                  cases hv2
                  rw [hvv] at hval
                  exact Bool.noConfusion hval
              · intro uid huid
                rw [heq] at huid
                exact Option.noConfusion huid
          | true =>
              cases hf : st.find? (sessionMatches (.digestHex tok) now) with
              | none =>
                  have heq := validateSession_none_of_noMatch env now tok st
                    (fun s hs => by
                      have hns := List.find?_eq_none.mp hf s hs
                      simpa using hns)
                  refine ⟨?_, ?_⟩
                  · rw [heq]
                    constructor
                    · intro hL; simp at hL
                    · rintro ⟨-, s, hs, hp⟩
                      exact absurd hp (List.find?_eq_none.mp hf s hs)
                  · intro uid huid
                    rw [heq] at huid
                    exact Option.noConfusion huid
              | some s0 =>
                  have heq : validateSession env now tok st =
                      (some s0.userId,
                       updateFirst (sessionMatches (.digestHex tok) now)
                         (fun r => { r with lastUsed := now }) st) := by
                    simp only [validateSession, if_neg he, hv, hvv,
                      hashRefreshToken_ok tok he, hf]
                    rw [if_neg (by decide : ¬ (true : Bool) = false)]
                  refine ⟨?_, ?_⟩
                  · rw [heq]
                    constructor
                    · intro hL
                      exact ⟨⟨v, rfl, hvv⟩, s0, List.mem_of_find?_eq_some hf,
                        List.find?_some hf⟩
                    · intro hR
                      rfl
                  · intro uid huid
                    rw [heq] at huid
                    cases huid
                    exact ⟨s0, List.mem_of_find?_eq_some hf, List.find?_some hf, rfl⟩
  · intro now tok st st2 hlen hrev s hs hsh
    by_cases he : tok = .empty
    · subst he
      simp [revokeSession] at hrev
    · simp only [revokeSession, if_neg he, hashRefreshToken_ok tok he] at hrev
      cases hrev
      exact updateFirst_unique_deactivation (.digestHex tok) st hlen s hs hsh
  · intro env now tok st hno
    apply validateSession_none_of_noMatch
    intro s hs
    by_cases hh : s.refreshTokenHash = .digestHex tok
    · simp [sessionMatches, hh, hno s hs hh]
    · simp [sessionMatches, hh]

/-- C1 witness: the amended property instantiated on a one-record store:
the record is revoked, the revocation leaves no active record with the
hash, and validateSession afterwards returns null leaving the store
unchanged. -/
theorem c1_witness :
    (∀ s ∈ ([⟨"u", .digestHex (.jwt ⟨"u", "refresh", "refsec", 0, 604800000⟩),
        "d", "ip", none, 604800000, false, 0, 0, none⟩] : Store),
      s.refreshTokenHash = .digestHex (.jwt ⟨"u", "refresh", "refsec", 0, 604800000⟩) →
      s.isActive = false) ∧
    validateSession ⟨"sec", "refsec"⟩ 3
        (.jwt ⟨"u", "refresh", "refsec", 0, 604800000⟩)
        [⟨"u", .digestHex (.jwt ⟨"u", "refresh", "refsec", 0, 604800000⟩),
          "d", "ip", none, 604800000, false, 0, 0, none⟩] =
      (none,
       [⟨"u", .digestHex (.jwt ⟨"u", "refresh", "refsec", 0, 604800000⟩),
         "d", "ip", none, 604800000, false, 0, 0, none⟩]) := by
  have h := c1_validate_revoke_characterization
  have hrev := h.2.1 7
    (.jwt ⟨"u", "refresh", "refsec", 0, 604800000⟩)
    [⟨"u", .digestHex (.jwt ⟨"u", "refresh", "refsec", 0, 604800000⟩),
      "d", "ip", none, 604800000, true, 0, 0, none⟩]
    [⟨"u", .digestHex (.jwt ⟨"u", "refresh", "refsec", 0, 604800000⟩),
      "d", "ip", none, 604800000, false, 0, 0, none⟩]
    (by decide) (by decide)
  exact ⟨hrev, h.2.2 ⟨"sec", "refsec"⟩ 3
    (.jwt ⟨"u", "refresh", "refsec", 0, 604800000⟩)
    [⟨"u", .digestHex (.jwt ⟨"u", "refresh", "refsec", 0, 604800000⟩),
      "d", "ip", none, 604800000, false, 0, 0, none⟩] hrev⟩

end GurujiYog
